import Mathlib

/-!
Verification development for the activedb record updater.

The definitions below are a shallow embedding of the Python sources:
* `src/updater_final.py` — time/event parsing, `SB.upsert_record`, `run_sudam`;
* `src/updater_final_STABLE_v15_3_ARG_WIKI_PRIMARY_MARKED.py` — `parse_time_to_seconds`;
* `src/update_masters.py` — `clean_time`, `extraer_tiempo_testigo`, the
  two-table gender inference of `procesar_tablas_pdf`.

Python strings are modelled as `List Char`.  Python `float` values arising in
these code paths always come from parsing short decimal literals, so they are
modelled exactly by the decimal-fraction type `Dec` (`val / 10 ^ exp`); on such
values IEEE evaluation and exact evaluation round to the same millisecond.
Python `round` is modelled as round-half-to-even, its documented behaviour.
`int(...)` and `float(...)` are modelled on the decimal fragment the scrapers
feed them (optional sign, digits, one decimal point; no exponent, no
underscores, no inf/nan forms).
-/

namespace ActiveDB

/-! ### Python string primitives -/

/-- The characters Python `str.strip` and `\s` treat as whitespace (ASCII fragment). -/
def pySpace (c : Char) : Bool :=
  c = ' ' || c = '\t' || c = '\n' || c = '\r' || c = '\x0b' || c = '\x0c'

/-- Python `str.strip()`. -/
def pyStrip (cs : List Char) : List Char :=
  ((cs.dropWhile pySpace).reverse.dropWhile pySpace).reverse

/-- Python `str.lower()` (ASCII fragment). -/
def pyLower (cs : List Char) : List Char := cs.map Char.toLower

/-- Python `str.upper()` (ASCII fragment). -/
def pyUpper (cs : List Char) : List Char := cs.map Char.toUpper

/-- Does `cs` start with `pat` (exact characters)? -/
def startsWith (pat cs : List Char) : Bool :=
  match pat, cs with
  | [], _ => true
  | _ :: _, [] => false
  | p :: ps, c :: rest => p = c && startsWith ps rest

/-- Python `pat in cs` (substring containment). -/
def csub (cs pat : List Char) : Bool :=
  match cs with
  | [] => startsWith pat []
  | _ :: rest => startsWith pat cs || csub rest pat

/-- Python `s.split(sep)` for a one-character separator (`"".split` gives `[""]`). -/
def splitOnChar (sep : Char) : List Char → List (List Char)
  | [] => [[]]
  | c :: rest =>
    let r := splitOnChar sep rest
    if c = sep then [] :: r
    else
      match r with
      | h :: t => (c :: h) :: t
      | [] => [[c]]

/-- Decimal value of a digit list. -/
def digitsValNat (cs : List Char) : Nat :=
  cs.foldl (fun a c => a * 10 + (c.toNat - 48)) 0

/-- Python `int(...)` on an already-stripped string (sign and digits). -/
def pyIntCore (cs : List Char) : Option Int :=
  match cs with
  | '+' :: rest =>
      if rest ≠ [] ∧ rest.all Char.isDigit then some (digitsValNat rest : Int) else none
  | '-' :: rest =>
      if rest ≠ [] ∧ rest.all Char.isDigit then some (-(digitsValNat rest : Int)) else none
  | _ => if cs ≠ [] ∧ cs.all Char.isDigit then some (digitsValNat cs : Int) else none

/-- Python `int(...)` (strips surrounding whitespace itself). -/
def pyInt (cs : List Char) : Option Int := pyIntCore (pyStrip cs)

/-! ### Exact decimal fractions standing in for the Python floats of these code paths -/

/-- The value `val / 10 ^ exp`. -/
structure Dec where
  val : Int
  exp : Nat
deriving DecidableEq, Repr

/-- Add an integer to a decimal fraction. -/
def Dec.addInt (d : Dec) (n : Int) : Dec := ⟨d.val + n * (10 : Int) ^ d.exp, d.exp⟩

/-- Multiply a decimal fraction by an integer. -/
def Dec.mulInt (d : Dec) (n : Int) : Dec := ⟨d.val * n, d.exp⟩

/-- Sum of two decimal fractions (no normalisation needed for our purposes). -/
def Dec.add (a b : Dec) : Dec :=
  ⟨a.val * (10 : Int) ^ b.exp + b.val * (10 : Int) ^ a.exp, a.exp + b.exp⟩

/-- Negation. -/
def Dec.neg (d : Dec) : Dec := ⟨-d.val, d.exp⟩

/-- Python `<` on these values (denominators are positive powers of ten). -/
def Dec.blt (a b : Dec) : Bool :=
  decide (a.val * (10 : Int) ^ b.exp < b.val * (10 : Int) ^ a.exp)

/-- Python `!= 0` / truthiness of these values. -/
def Dec.isZero (d : Dec) : Bool := d.val = 0

/-- Unsigned decimal literal: `digits`, `digits.digits`, `.digits` or `digits.`. -/
def pyFloatCore (cs : List Char) : Option Dec :=
  let ip := cs.takeWhile Char.isDigit
  let rest := cs.dropWhile Char.isDigit
  match rest with
  | [] => if ip = [] then none else some ⟨(digitsValNat ip : Int), 0⟩
  | '.' :: fp =>
      if fp.all Char.isDigit ∧ (ip ≠ [] ∨ fp ≠ []) then
        some ⟨(digitsValNat ip : Int) * (10 : Int) ^ fp.length + (digitsValNat fp : Int),
              fp.length⟩
      else none
  | _ => none

/-- Signed decimal literal. -/
def pyFloatSigned (cs : List Char) : Option Dec :=
  match cs with
  | '+' :: rest => pyFloatCore rest
  | '-' :: rest => (pyFloatCore rest).map Dec.neg
  | _ => pyFloatCore cs

/-- Python `float(...)` on the decimal fragment (strips surrounding whitespace). -/
def pyFloat (cs : List Char) : Option Dec := pyFloatSigned (pyStrip cs)

/-- Python `round(...)` to an integer: round half to even. -/
def pyRound (d : Dec) : Int :=
  let m : Int := (10 : Int) ^ d.exp
  let q := d.val.fdiv m
  let r := d.val.fmod m
  if 2 * r < m then q
  else if m < 2 * r then q + 1
  else if q % 2 = 0 then q else q + 1

/-! ### `parse_time_to_ms` and `format_ms_to_clock` (`src/updater_final.py`, lines 96-146) -/

/-- Embedding of `parse_time_to_ms` (updater_final.py lines 96-134). -/
def parse_time_to_ms (raw : Option String) : Option Int :=
  match raw with
  | none => none
  | some r =>
    let s0 := pyStrip r.data
    if s0 = [] then none
    else
      let s1 := s0.map (fun c => if c = ',' then '.' else c)
      let s := s1.filter (fun c => !(pySpace c))
      if s.contains ':' then
        match splitOnChar ':' s with
        | [p0, p1, p2] => do
            let hh ← pyInt p0
            let mm ← pyInt p1
            let sec ← pyFloat p2
            pure (pyRound ((sec.addInt (hh * 3600 + mm * 60)).mulInt 1000))
        | [p0, p1] => do
            let mm ← pyInt p0
            let sec ← pyFloat p1
            pure (pyRound ((sec.addInt (mm * 60)).mulInt 1000))
        | _ => none
      else
        match splitOnChar '.' s with
        | [_, _] => do
            let sec ← pyFloat s
            pure (pyRound (sec.mulInt 1000))
        | [a, b, c] => do
            let mm ← pyInt a
            let ss ← pyInt b
            let cc ← pyInt c
            pure ((mm * 60 + ss) * 1000 + cc * 10)
        | [a, b, c, d] => do
            let hh ← pyInt a
            let mm ← pyInt b
            let ss ← pyInt c
            let cc ← pyInt d
            pure ((hh * 3600 + mm * 60 + ss) * 1000 + cc * 10)
        | _ => none

/-- Zero-padded two-digit field, Python `f"{n:02d}"` for nonnegative `n`. -/
def pad2 (n : Nat) : String := if n < 10 then "0" ++ toString n else toString n

/-- Embedding of `format_ms_to_clock` (updater_final.py lines 137-146). -/
def format_ms_to_clock (ms : Int) : String :=
  let msN : Nat := (max ms 0).toNat
  let ts := msN / 1000
  let cent := (msN % 1000) / 10
  pad2 (ts / 3600) ++ ":" ++ pad2 ((ts % 3600) / 60) ++ ":" ++ pad2 (ts % 60) ++ "." ++ pad2 cent

/-! ### `parse_event` (`src/updater_final.py`, lines 173-218)

`RELAY_RE` and `EVENT_RE` are embedded as specialised matchers with the exact
regex semantics on the relevant patterns: leftmost search over start
positions; `\d{2,4}` greedy with backtracking into the continuation;
ordered alternation; `re.IGNORECASE` by lowercasing the subject character.
The `\s*` pieces are deterministic because no following alternative begins
with a whitespace character. -/

/-- Case-insensitive prefix test; `pat` is already lowercase. -/
def startsWithCI (pat cs : List Char) : Bool :=
  match pat, cs with
  | [], _ => true
  | _ :: _, [] => false
  | p :: ps, c :: rest => p = c.toLower && startsWithCI ps rest

/-- Consume `\s*`. -/
def dropSpaces (cs : List Char) : List Char := cs.dropWhile pySpace

/-- First alternative matching case-insensitively at the head of `cs`
(regex alternation is ordered). -/
def matchAlt (alts : List (List Char)) (cs : List Char) : Option (List Char) :=
  match alts with
  | [] => none
  | a :: rest => if startsWithCI a cs then some a else matchAlt rest cs

/-- Stroke alternation of `RELAY_RE`, in source order. -/
def strokeAltsRelay : List (List Char) :=
  ["freestyle", "backstroke", "breaststroke", "butterfly", "medley",
   "libre", "espalda", "pecho", "mariposa", "combinado", "im"].map String.data

/-- Stroke alternation of `EVENT_RE`, in source order. -/
def strokeAltsEvent : List (List Char) :=
  ["freestyle", "backstroke", "breaststroke", "butterfly", "medley",
   "individual medley", "im", "libre", "espalda", "pecho", "mariposa",
   "combinado"].map String.data

/-- `\d{2,4}` of exactly `n` characters, then `\s*m\s*` and the relay strokes. -/
def relayDistTry (n : Nat) (cs : List Char) : Option (Nat × List Char) :=
  let ds := cs.take n
  if ds.length = n ∧ ds.all Char.isDigit then
    match dropSpaces (cs.drop n) with
    | c :: rest =>
        if c.toLower = 'm' then
          match matchAlt strokeAltsRelay (dropSpaces rest) with
          | some st => some (digitsValNat ds, st)
          | none => none
        else none
    | [] => none
  else none

/-- `RELAY_RE` anchored at the current position. -/
def relayAt (cs : List Char) : Option (Nat × List Char) :=
  match cs with
  | c :: rest =>
    if c.isDigit then
      match dropSpaces rest with
      | x :: rest2 =>
        if x.toLower = 'x' || x = '×' then
          let cs3 := dropSpaces rest2
          match relayDistTry 4 cs3 with
          | some r => some r
          | none =>
            match relayDistTry 3 cs3 with
            | some r => some r
            | none => relayDistTry 2 cs3
        else none
      | [] => none
    else none
  | [] => none

/-- One alternative of `(?:m|mts|metros)?` followed by `\s*` and the event strokes. -/
def eventUnitTry (unit cs : List Char) : Option (List Char) :=
  if startsWithCI unit cs then
    matchAlt strokeAltsEvent (dropSpaces (cs.drop unit.length))
  else none

/-- `\d{2,4}` of exactly `n` characters, then `\s*(?:m|mts|metros)?\s*` and strokes. -/
def eventDistTry (n : Nat) (cs : List Char) : Option (Nat × List Char) :=
  let ds := cs.take n
  if ds.length = n ∧ ds.all Char.isDigit then
    let rest := dropSpaces (cs.drop n)
    let strokeRes :=
      match eventUnitTry "m".data rest with
      | some st => some st
      | none =>
        match eventUnitTry "mts".data rest with
        | some st => some st
        | none =>
          match eventUnitTry "metros".data rest with
          | some st => some st
          | none => eventUnitTry [] rest
    match strokeRes with
    | some st => some (digitsValNat ds, st)
    | none => none
  else none

/-- `EVENT_RE` anchored at the current position. -/
def eventAt (cs : List Char) : Option (Nat × List Char) :=
  match eventDistTry 4 cs with
  | some r => some r
  | none =>
    match eventDistTry 3 cs with
    | some r => some r
    | none => eventDistTry 2 cs

/-- `re.search`: leftmost start position at which the anchored matcher succeeds. -/
def searchRe {α : Type} (f : List Char → Option α) : List Char → Option α
  | [] => f []
  | c :: rest =>
    match f (c :: rest) with
    | some r => some r
    | none => searchRe f rest

/-- `STROKE_MAP` (updater_final.py lines 173-187); keys are the lowered matches. -/
def STROKE_MAP (key : List Char) : Option String :=
  if key = "freestyle".data then some "Libre"
  else if key = "backstroke".data then some "Espalda"
  else if key = "breaststroke".data then some "Pecho"
  else if key = "butterfly".data then some "Mariposa"
  else if key = "medley".data then some "Combinado"
  else if key = "individual medley".data then some "Combinado"
  else if key = "im".data then some "Combinado"
  else if key = "libre".data then some "Libre"
  else if key = "espalda".data then some "Espalda"
  else if key = "pecho".data then some "Pecho"
  else if key = "mariposa".data then some "Mariposa"
  else if key = "combinado".data then some "Combinado"
  else none

/-- Embedding of `parse_event` (updater_final.py lines 199-218): returns
`(distance, stroke)`; for relays the distance of the **leg** (docstring:
"En relevos, devuelve distancia del tramo (ej 4x100 -> 100)"). -/
def parse_event (event_raw : Option String) : Option Nat × Option String :=
  match event_raw with
  | none => (none, none)
  | some e =>
    let s := pyStrip e.data
    if s = [] then (none, none)
    else
      match searchRe relayAt s with
      | some (dist, strokeKey) => (some dist, STROKE_MAP strokeKey)
      | none =>
        match searchRe eventAt s with
        | some (dist, strokeKey) => (some dist, STROKE_MAP strokeKey)
        | none => (none, none)

/-! ### `parse_time_to_seconds` (STABLE file, lines 117-155) -/

/-- ASCII double quote. -/
def quoteChar : Char := Char.ofNat 34

/-- ASCII apostrophe. -/
def apostChar : Char := Char.ofNat 39

/-- U+2033 double prime. -/
def dprime : Char := Char.ofNat 8243

/-- U+2019 right single quotation mark. -/
def rsquo : Char := Char.ofNat 8217

/-- U+00B4 acute accent. -/
def acute : Char := Char.ofNat 180

/-- Tail of `_TIME_RE` after the `(\d+)` seconds group: `(?:[.,]\s*(\d{1,2}))?\s*$`,
already combined with the Python result `mm * 60 + ss + int(cc) / (100 if len(cc) == 2 else 10)`. -/
def timeReTail (mm ss : Nat) (rest : List Char) : Option Dec :=
  match rest with
  | [] => some ⟨(mm * 60 + ss : Nat), 0⟩
  | c :: rest2 =>
    if c = '.' ∨ c = ',' then
      let t := rest2.dropWhile pySpace
      let f2 := t.take 2
      if f2.length = 2 ∧ f2.all Char.isDigit ∧ (t.drop 2).dropWhile pySpace = [] then
        some ⟨((mm * 60 + ss) * 100 + digitsValNat f2 : Nat), 2⟩
      else
        let f1 := t.take 1
        if f1.length = 1 ∧ f1.all Char.isDigit ∧ (t.drop 1).dropWhile pySpace = [] then
          some ⟨((mm * 60 + ss) * 10 + digitsValNat f1 : Nat), 1⟩
        else none
    else if rest.dropWhile pySpace = [] then some ⟨(mm * 60 + ss : Nat), 0⟩
    else none

/-- `_TIME_RE` (`^\s*(?:(\d+)\s*:\s*)?(\d+)(?:[.,]\s*(\d{1,2}))?\s*$`) together
with the arithmetic of `parse_time_to_seconds`.  The greedy `(\d+)` groups are
deterministic here because shrinking them leaves a digit in front of a
non-digit pattern element. -/
def timeReMatch (s : List Char) : Option Dec :=
  let t0 := s.dropWhile pySpace
  let d1 := t0.takeWhile Char.isDigit
  let r1 := t0.dropWhile Char.isDigit
  if d1 = [] then none
  else
    match r1.dropWhile pySpace with
    | c :: rest =>
      if c = ':' then
        let t1 := rest.dropWhile pySpace
        let d2 := t1.takeWhile Char.isDigit
        let r2 := t1.dropWhile Char.isDigit
        if d2 = [] then none
        else timeReTail (digitsValNat d1) (digitsValNat d2) r2
      else timeReTail 0 (digitsValNat d1) r1
    | [] => timeReTail 0 (digitsValNat d1) r1

/-- Embedding of `parse_time_to_seconds` (STABLE file, lines 120-155). -/
def parse_time_to_seconds (raw : Option String) : Option Dec :=
  match raw with
  | none => none
  | some r =>
    let s0 := pyStrip r.data
    if s0 = [] ∨ s0 = "—".data ∨ s0 = "-".data ∨ s0 = "–".data then none
    else
      let s1 := s0.map (fun c =>
        if c = dprime then quoteChar
        else if c = rsquo then apostChar
        else if c = acute then apostChar
        else c)
      let s2 :=
        if s1.contains quoteChar ∧ ¬ s1.contains ':' then
          s1.map (fun c => if c = quoteChar then '.' else c)
        else s1
      let s3 :=
        if s2.contains apostChar ∧ ¬ s2.contains ':' then
          (s2.map (fun c => if c = apostChar then '.' else c)).filter (fun c => c ≠ quoteChar)
        else s2
      let s := s3.map (fun c => if c = ',' then '.' else c)
      timeReMatch s

/-! ### `clean_time`, `extraer_tiempo_testigo` and the two-table gender map
(`src/update_masters.py`, lines 123-139 and 255-304) -/

/-- Embedding of `clean_time` (update_masters.py lines 123-139); any exception
inside the `try` yields `None`. -/
def clean_time (time_str : Option String) : Option Dec :=
  match time_str with
  | none => none
  | some raw =>
    let s := (pyStrip raw.data).filter (fun c => c ≠ '*' ∧ c ≠ '+')
    if s = [] ∨ pyUpper s = "NO TIME".data ∨ pyUpper s = "NT".data then none
    else if s.contains ':' then
      match splitOnChar ':' s with
      | [a, b] => do
          let x ← pyFloat a
          let y ← pyFloat b
          pure ((x.mulInt 60).add y)
      | [a, b, c] => do
          let x ← pyFloat a
          let y ← pyFloat b
          let z ← pyFloat c
          pure (((x.mulInt 3600).add (y.mulInt 60)).add z)
      | _ => pyFloat s
    else pyFloat s

/-- Python-truthy cells of a PDF table row (`for c in row if c`). -/
def truthyCells (row : List (Option String)) : List String :=
  row.filterMap (fun c =>
    match c with
    | none => none
    | some s => if s = "" then none else some s)

/-- `" ".join(...)`. -/
def joinSpace : List (List Char) → List Char
  | [] => []
  | [x] => x
  | x :: y :: rest => x ++ ' ' :: joinSpace (y :: rest)

/-- The `row_str` of `extraer_tiempo_testigo`. -/
def rowStr (row : List (Option String)) : List Char :=
  joinSpace ((truthyCells row).map String.data)

/-- Rows following the first header row containing `"18-24"`. -/
def dropToHeader : List (List (Option String)) → Option (List (List (Option String)))
  | [] => none
  | row :: rest =>
    if csub (rowStr row) "18-24".data then some rest else dropToHeader rest

/-- Scan of the rows after the header in `extraer_tiempo_testigo`:
first `50 ... FREE` row whose second cell cleans to a truthy time; a row
shorter than two cells raises `IndexError`, which the surrounding `try`
converts to the sentinel `9999.0`. -/
def buscarTestigo : List (List (Option String)) → Dec
  | [] => ⟨9999, 0⟩
  | row :: rest =>
    let row_clean := (truthyCells row).map
      (fun s => pyUpper (pyStrip (s.data.map (fun c => if c = '\n' then ' ' else c))))
    match row_clean with
    | [] => buscarTestigo rest
    | evt :: _ =>
      if csub evt "50".data ∧ csub evt "FREE".data then
        match row.get? 1 with
        | none => ⟨9999, 0⟩
        | some cell =>
          match clean_time cell with
          | some t => if t.isZero then buscarTestigo rest else t
          | none => buscarTestigo rest
      else buscarTestigo rest

/-- Embedding of `extraer_tiempo_testigo` (update_masters.py lines 255-281). -/
def extraer_tiempo_testigo (table : List (List (Option String))) : Dec :=
  match dropToHeader table with
  | none => ⟨9999, 0⟩
  | some rest => buscarTestigo rest

/-- Embedding of the two-sibling-table gender inference of
`procesar_tablas_pdf` (update_masters.py lines 294-304): probe both tables
with `extraer_tiempo_testigo` and assign `("M", "F")` to `(tables[0], tables[1])`
when `0 < t0 < t1`, `("F", "M")` when `0 < t1 < t0`, and the default
`("F", "M")` otherwise. -/
def mapa_generos_pdf (tabla0 tabla1 : List (List (Option String))) : String × String :=
  let t0 := extraer_tiempo_testigo tabla0
  let t1 := extraer_tiempo_testigo tabla1
  if Dec.blt ⟨0, 0⟩ t0 ∧ Dec.blt t0 t1 then ("M", "F")
  else if Dec.blt ⟨0, 0⟩ t1 ∧ Dec.blt t1 t0 then ("F", "M")
  else ("F", "M")

/-! ### `SB.upsert_record` (`src/updater_final.py`, lines 352-436)

The `records_standards` table is modelled as a list of rows plus a fresh-id
counter.  Dictionary payloads and rows are modelled as structures whose fields
are the columns of the fallback schema of `SB._detect_columns` (lines
331-337); a missing dictionary key and a key mapped to `None` both parse and
compare identically in the source, so both are `none`.  `SB.has` is column
membership in that schema, exactly as the code consults it.  The Supabase
`insert` enforces the uniqueness constraint on the composite key; the
argument `conc` of `upsert_record` models rows committed by a concurrent
writer between the `select` and the `insert` (the race of the spec), so a
sequential run is `conc = []`.  `RUN_TS` is the run timestamp constant. -/

/-- The run timestamp constant (module-level `RUN_TS`). -/
def RUN_TS : String := "RUN_TS"

/-- Fallback column list of `SB._detect_columns` (lines 331-337). -/
def fallbackColumns : List String :=
  ["id",
   "record_scope", "record_type", "category", "pool_length", "gender", "stroke", "distance",
   "time_clock", "time_ms",
   "athlete_name", "country", "record_date", "competition_name", "city",
   "source_name", "source_url", "notes", "last_updated"]

/-- `SB.has` (line 339-340). -/
def has (col : String) : Bool := fallbackColumns.contains col

/-- A candidate payload as assembled by `build_payload` / passed to
`upsert_record`.  `none` is a missing key or a `None` value. -/
structure Payload where
  record_scope : Option String
  record_type : Option String
  category : Option String
  pool_length : Option String
  gender : Option String
  stroke : Option String
  distance : Option Int
  time_ms : Option Int
  time_clock : Option String
  athlete_name : Option String
  country : Option String
  record_date : Option String
  competition_name : Option String
  city : Option String
  source_name : Option String
  source_url : Option String
  notes : Option String
deriving DecidableEq, Repr

/-- A persisted row of `records_standards`. -/
structure Row where
  id : Nat
  record_scope : Option String
  record_type : Option String
  category : Option String
  pool_length : Option String
  gender : Option String
  stroke : Option String
  distance : Option Int
  time_ms : Option Int
  time_clock : Option String
  athlete_name : Option String
  country : Option String
  record_date : Option String
  competition_name : Option String
  city : Option String
  source_name : Option String
  source_url : Option String
  notes : Option String
  last_updated : Option String
deriving DecidableEq, Repr

/-- The storage table plus the id the next insert will receive. -/
structure Storage where
  rows : List Row
  nextId : Nat
deriving DecidableEq, Repr

/-- The composite key `required` of `upsert_record` (line 354). -/
structure CKey where
  record_scope : Option String
  record_type : Option String
  category : Option String
  pool_length : Option String
  gender : Option String
  stroke : Option String
  distance : Option Int
deriving DecidableEq, Repr

/-- Key of a row. -/
def keyOfRow (r : Row) : CKey :=
  ⟨r.record_scope, r.record_type, r.category, r.pool_length, r.gender, r.stroke, r.distance⟩

/-- Key of a payload. -/
def keyOfPayload (p : Payload) : CKey :=
  ⟨p.record_scope, p.record_type, p.category, p.pool_length, p.gender, p.stroke, p.distance⟩

/-- The `.eq` filters of the existence query (lines 360-363): the row matches
on every one of the seven key columns. -/
def rowMatches (p : Payload) (r : Row) : Bool := decide (keyOfRow r = keyOfPayload p)

/-- The check `payload.get(k) in (None, "")` over the `required` keys
(lines 354-357); a violation raises `ValueError`. -/
def requiredOk (p : Payload) : Bool :=
  let strOk : Option String → Bool := fun v =>
    match v with
    | none => false
    | some s => s ≠ ""
  strOk p.record_scope && strOk p.record_type && strOk p.category &&
    strOk p.pool_length && strOk p.gender && strOk p.stroke && p.distance.isSome

/-- `new_ms` (lines 367-369): the payload `time_ms` or else the parse of its
`time_clock` (a missing key defaults to `""`, which parses to `None` exactly
like `None` does). -/
def new_ms_of (p : Payload) : Option Int :=
  match p.time_ms with
  | some v => some v
  | none => parse_time_to_ms p.time_clock

/-- `old_ms` (lines 380-382): the stored `time_ms` or else the parse of the
stored `time_clock` (`or ""` again parses identically). -/
def old_ms_of (r : Row) : Option Int :=
  match r.time_ms with
  | some v => some v
  | none => parse_time_to_ms r.time_clock

/-- `time_changed` (line 384): both values present and different. -/
def time_changed_of (p : Payload) (r : Row) : Bool :=
  match new_ms_of p, old_ms_of r with
  | some n, some o => decide (n ≠ o)
  | _, _ => false

/-- The priority inferred from the stored `source_name` (lines 386-396):
lowercase the stripped name and test the substrings in the `elif` order. -/
def derive_priority (source_name : Option String) : Int :=
  let old_source := pyLower (pyStrip (source_name.getD "").data)
  if csub old_source "world aquatics".data then 100
  else if csub old_source "usa swimming".data ∨ csub old_source "data hub".data then 90
  else if csub old_source "consanat".data then 80
  else if csub old_source "wikipedia".data then 10
  else 50

/-- Emptiness test used by the fill loop (lines 407-409):
`v is None or str(v).strip() == ""`. -/
def isEmptyV : Option String → Bool
  | none => true
  | some s => decide (pyStrip s.data = [])

/-- One iteration of the fill loop (lines 402-410): stage the candidate value
only when it is non-empty and the stored value is empty. -/
def fillUpd (oldv newv : Option String) : Option String :=
  if isEmptyV newv then none
  else if isEmptyV oldv then newv
  else none

/-- The fill loop guard `if not self.has(f): continue` (lines 403-404). -/
def stageFill (col : String) (oldv newv : Option String) : Option String :=
  if has col then fillUpd oldv newv else none

/-- The staged partial update (`updates` dict).  A `none` field is an absent
key. -/
structure Updates where
  athlete_name : Option String
  country : Option String
  record_date : Option String
  competition_name : Option String
  city : Option String
  source_name : Option String
  source_url : Option String
  notes : Option String
  time_ms : Option Int
  time_clock : Option String
deriving DecidableEq, Repr

/-- The empty `updates` dict. -/
def Updates.empty : Updates :=
  ⟨none, none, none, none, none, none, none, none, none, none⟩

/-- The fill entries of `updates` after the loop of lines 402-410. -/
def staged_fills (p : Payload) (r : Row) : Updates :=
  { athlete_name := stageFill "athlete_name" r.athlete_name p.athlete_name
    country := stageFill "country" r.country p.country
    record_date := stageFill "record_date" r.record_date p.record_date
    competition_name := stageFill "competition_name" r.competition_name p.competition_name
    city := stageFill "city" r.city p.city
    source_name := stageFill "source_name" r.source_name p.source_name
    source_url := stageFill "source_url" r.source_url p.source_url
    notes := stageFill "notes" r.notes p.notes
    time_ms := none
    time_clock := none }

/-- `updates` after also staging the time columns when `time_changed`
(lines 413-420; the priority early-return is handled in `evalExisting`). -/
def updatesFor (p : Payload) (r : Row) : Updates :=
  let u0 := staged_fills p r
  if time_changed_of p r = true then
    { u0 with
      time_ms := if has "time_ms" ∧ (new_ms_of p).isSome then new_ms_of p else none
      time_clock :=
        if has "time_clock" ∧ (new_ms_of p).isSome then (new_ms_of p).map format_ms_to_clock
        else none }
  else u0

/-- Apply a staged field to a stored one. -/
def updField {α : Type} (cur upd : Option α) : Option α :=
  match upd with
  | some v => some v
  | none => cur

/-- The partial `UPDATE ... eq("id", existing["id"])` of lines 422-430, with
`updates["last_updated"] = RUN_TS`. -/
def applyUpdates (r : Row) (u : Updates) : Row :=
  { r with
    athlete_name := updField r.athlete_name u.athlete_name
    country := updField r.country u.country
    record_date := updField r.record_date u.record_date
    competition_name := updField r.competition_name u.competition_name
    city := updField r.city u.city
    source_name := updField r.source_name u.source_name
    source_url := updField r.source_url u.source_url
    notes := updField r.notes u.notes
    time_ms := updField r.time_ms u.time_ms
    time_clock := updField r.time_clock u.time_clock
    last_updated := some RUN_TS }

/-- The row inserted for a fresh key (lines 372-378): the payload plus
`last_updated = RUN_TS`. -/
def rowOfPayload (id : Nat) (p : Payload) : Row :=
  { id := id
    record_scope := p.record_scope
    record_type := p.record_type
    category := p.category
    pool_length := p.pool_length
    gender := p.gender
    stroke := p.stroke
    distance := p.distance
    time_ms := p.time_ms
    time_clock := p.time_clock
    athlete_name := p.athlete_name
    country := p.country
    record_date := p.record_date
    competition_name := p.competition_name
    city := p.city
    source_name := p.source_name
    source_url := p.source_url
    notes := p.notes
    last_updated := some RUN_TS }

instance exceptDecEq {ε α : Type} [DecidableEq ε] [DecidableEq α] :
    DecidableEq (Except ε α) := fun a b =>
  match a, b with
  | .ok x, .ok y => if h : x = y then .isTrue (by rw [h]) else .isFalse (by simp [h])
  | .error x, .error y => if h : x = y then .isTrue (by rw [h]) else .isFalse (by simp [h])
  | .ok _, .error _ => .isFalse (by simp)
  | .error _, .ok _ => .isFalse (by simp)

/-- Status values returned by `upsert_record` (docstring, line 353). -/
inductive Status where
  | inserted
  | updated
  | filled
  | unchanged
  | skippedLowerPriority
deriving DecidableEq, Repr

/-- Exceptions escaping `upsert_record`: the `ValueError` of line 357 and a
unique-constraint violation raised by the insert. -/
inductive UpErr where
  | missingField
  | conflict
deriving DecidableEq, Repr

/-- Lines 380-436: the path taken when the lookup found a row.  Note the
early return of lines 414-416: a lower-priority source that changes the time
returns `skipped_lower_priority` with **no** write at all. -/
def evalExisting (p : Payload) (pri : Int) (ex : Row) (st : Storage) : Status × Storage :=
  if time_changed_of p ex = true ∧ pri < derive_priority ex.source_name then
    (.skippedLowerPriority, st)
  else
    let u := updatesFor p ex
    if u = Updates.empty then (.unchanged, st)
    else
      (if time_changed_of p ex = true then .updated else .filled,
       { st with rows := st.rows.map (fun x => if x.id = ex.id then applyUpdates x u else x) })

/-- Embedding of `SB.upsert_record` (lines 352-436). -/
def upsert_record (conc : List Row) (p : Payload) (pri : Int) (st : Storage) :
    Except UpErr (Status × Storage) :=
  if requiredOk p = false then .error .missingField
  else
    match st.rows.find? (rowMatches p) with
    | none =>
        if (st.rows ++ conc).any (rowMatches p) then .error .conflict
        else .ok (.inserted, ⟨st.rows ++ [rowOfPayload st.nextId p], st.nextId + 1⟩)
    | some ex => .ok (evalExisting p pri ex st)

/-! ### The per-candidate loop body of `run_sudam`
(`src/updater_final.py`, lines 1191-1235) -/

/-- The per-source counters (`stats` dict, line 1160). -/
structure Stats where
  seen : Nat
  inserted : Nat
  updated : Nat
  filled : Nat
  unchanged : Nat
  skipped : Nat
  errors : Nat
deriving DecidableEq, Repr

/-- The status switch of lines 1217-1226. -/
def bumpStats (stats : Stats) (s : Status) : Stats :=
  match s with
  | .inserted => { stats with inserted := stats.inserted + 1 }
  | .updated => { stats with updated := stats.updated + 1 }
  | .filled => { stats with filled := stats.filled + 1 }
  | .skippedLowerPriority => { stats with skipped := stats.skipped + 1 }
  | .unchanged => { stats with unchanged := stats.unchanged + 1 }

/-- One iteration of the upsert loop of `run_sudam` (lines 1191-1235):
`seen` is incremented, then the upsert is attempted; any exception is caught,
counted in `errors`, logged, and the loop continues with the next candidate. -/
def run_sudam_step (conc : List Row) (p : Payload) (pri : Int) (st : Storage)
    (stats : Stats) : Stats × Storage :=
  let stats1 := { stats with seen := stats.seen + 1 }
  match upsert_record conc p pri st with
  | .ok (s, st2) => (bumpStats stats1 s, st2)
  | .error _ => ({ stats1 with errors := stats1.errors + 1 }, st)

/-! ### Statement helpers (not source code: accessors used to phrase the
claims about `upsert_record`) -/

/-- The row the lookup of `upsert_record` would select for this payload. -/
def slotRow (p : Payload) (st : Storage) : Option Row := st.rows.find? (rowMatches p)

/-- Status of a sequential (`conc = []`) upsert, `none` on an exception. -/
def upsertStatus (p : Payload) (pri : Int) (st : Storage) : Option Status :=
  match upsert_record [] p pri st with
  | .ok (s, _) => some s
  | .error _ => none

/-- Resulting storage of a sequential upsert (unchanged on an exception). -/
def upsertState (p : Payload) (pri : Int) (st : Storage) : Storage :=
  match upsert_record [] p pri st with
  | .ok (_, st2) => st2
  | .error _ => st

/-- The fill-only-on-empty contract for one stored/staged field pair. -/
def fillRespects {α : Type} (emp : Option α → Bool) (oldv newv res : Option α) : Prop :=
  (emp oldv = false → res = oldv) ∧
    (res ≠ oldv → emp oldv = true ∧ emp newv = false ∧ res = newv)

/-- The fill-only-on-empty contract over the eight fillable value fields of
lines 399-410, relating the previous row `r`, the candidate `p` and the row
`rNew` left in storage. -/
def fillRespected (p : Payload) (r rNew : Row) : Prop :=
  fillRespects isEmptyV r.athlete_name p.athlete_name rNew.athlete_name ∧
  fillRespects isEmptyV r.country p.country rNew.country ∧
  fillRespects isEmptyV r.record_date p.record_date rNew.record_date ∧
  fillRespects isEmptyV r.competition_name p.competition_name rNew.competition_name ∧
  fillRespects isEmptyV r.city p.city rNew.city ∧
  fillRespects isEmptyV r.source_name p.source_name rNew.source_name ∧
  fillRespects isEmptyV r.source_url p.source_url rNew.source_url ∧
  fillRespects isEmptyV r.notes p.notes rNew.notes

/-! ### Concrete scenarios used to instantiate the theorems -/

/-- A candidate from a low-priority source with an improved time and an
athlete name (the candidate B of the end-to-end scenario of the spec). -/
def candSkip : Payload :=
  { record_scope := some "Sudamericano", record_type := some "Record Sudamericano"
    category := some "Open", pool_length := some "LCM", gender := some "M"
    stroke := some "Libre", distance := some 50
    time_ms := some 24500, time_clock := none
    athlete_name := some "Jane Doe", country := none, record_date := none
    competition_name := none, city := none, source_name := some "Wikipedia (Sudamérica)"
    source_url := none, notes := none }

/-- A stored record from World Aquatics (derived priority 100) with an empty
athlete name. -/
def rowWA : Row :=
  { id := 1, record_scope := some "Sudamericano", record_type := some "Record Sudamericano"
    category := some "Open", pool_length := some "LCM", gender := some "M"
    stroke := some "Libre", distance := some 50
    time_ms := some 25000, time_clock := some "00:00:25.00"
    athlete_name := none, country := none, record_date := none
    competition_name := none, city := none, source_name := some "World Aquatics"
    source_url := none, notes := none, last_updated := none }

/-- Storage holding only `rowWA`. -/
def stWA : Storage := ⟨[rowWA], 2⟩

/-- A candidate with a *slower* time from a source of the same derived
priority as the stored CONSANAT row. -/
def candInc : Payload :=
  { record_scope := some "Sudamericano", record_type := some "Record Sudamericano"
    category := some "Open", pool_length := some "LCM", gender := some "M"
    stroke := some "Libre", distance := some 50
    time_ms := some 25000, time_clock := none
    athlete_name := none, country := none, record_date := none
    competition_name := none, city := none, source_name := some "CONSANAT"
    source_url := none, notes := none }

/-- A stored CONSANAT row (derived priority 80) with time 24000 ms. -/
def rowCon : Row :=
  { id := 1, record_scope := some "Sudamericano", record_type := some "Record Sudamericano"
    category := some "Open", pool_length := some "LCM", gender := some "M"
    stroke := some "Libre", distance := some 50
    time_ms := some 24000, time_clock := some "00:00:24.00"
    athlete_name := none, country := none, record_date := none
    competition_name := none, city := none, source_name := some "CONSANAT"
    source_url := none, notes := none, last_updated := none }

/-- Storage holding only `rowCon`. -/
def stCon : Storage := ⟨[rowCon], 2⟩

/-- `rowCon` after `candInc` is applied: the persisted time *increased*. -/
def rowConInc : Row :=
  { rowCon with time_ms := some 25000, time_clock := some "00:00:25.00",
                last_updated := some RUN_TS }

/-- An equal-priority candidate with an improved time. -/
def candEq : Payload := { candInc with time_ms := some 23500 }

/-- A candidate whose value fields disagree with the already-filled stored
row and whose time is unchanged. -/
def candFill : Payload :=
  { candInc with time_ms := some 24000, athlete_name := some "Nueva Persona" }

/-- A stored row whose athlete name is already non-empty. -/
def rowFull : Row := { rowCon with athlete_name := some "Maria Perez" }

/-- Storage holding only `rowFull`. -/
def stFull : Storage := ⟨[rowFull], 2⟩

/-- Empty storage. -/
def stEmpty : Storage := ⟨[], 1⟩

/-- The row a concurrent writer commits between lookup and insert. -/
def concRow : Row := rowOfPayload 7 candInc

/-- Zeroed counters. -/
def stats0 : Stats := ⟨0, 0, 0, 0, 0, 0, 0⟩

/-- PDF table whose 50-free probe time is 24.50 s. -/
def tablaRapida : List (List (Option String)) :=
  [[some "Event", some "18-24"], [some "50 Free", some "24.50"]]

/-- PDF table whose 50-free probe time is 28.00 s. -/
def tablaLenta : List (List (Option String)) :=
  [[some "Event", some "18-24"], [some "50 Free", some "28.00"]]

/-! ## Helper lemmas -/

theorem find?_append_of_none {α : Type} {l : List α} (l' : List α) {q : α → Bool}
    (h : l.find? q = none) : (l ++ l').find? q = l'.find? q := by
  induction l with
  | nil => simp
  | cons a t ih =>
    rw [List.find?_cons] at h
    rw [List.cons_append, List.find?_cons]
    cases hqa : q a with
    | false =>
      rw [hqa] at h
      simp only [hqa]
      exact ih h
    | true => rw [hqa] at h; simp at h

theorem find?_map_of_keyinv {α : Type} {f : α → α} {q : α → Bool} (l : List α)
    (h : ∀ x, q (f x) = q x) : (l.map f).find? q = (l.find? q).map f := by
  induction l with
  | nil => simp
  | cons a t ih =>
    rw [List.map_cons, List.find?_cons, List.find?_cons, h a]
    cases hqa : q a with
    | false => simpa using ih
    | true => simp

theorem any_eq_false_of_find?_none {α : Type} {l : List α} {q : α → Bool}
    (h : l.find? q = none) : l.any q = false := by
  rw [List.find?_eq_none] at h
  rw [List.any_eq_false]
  intro x hx
  simp [h x hx]

theorem fillUpd_self (v : Option String) : fillUpd v v = none := by
  unfold fillUpd
  cases h : isEmptyV v <;> simp [h]

theorem stageFill_self (c : String) (v : Option String) : stageFill c v v = none := by
  unfold stageFill
  cases h : has c <;> simp [h, fillUpd_self]

theorem fillUpd_after (oldv newv : Option String) :
    fillUpd (updField oldv (fillUpd oldv newv)) newv = none := by
  cases hn : isEmptyV newv with
  | false =>
    cases ho : isEmptyV oldv with
    | false => simp [fillUpd, hn, ho, updField]
    | true =>
      cases newv with
      | none => simp [isEmptyV] at hn
      | some s => simp [fillUpd, hn, ho, updField]
  | true => simp [fillUpd, hn, updField]

theorem stageFill_after (c : String) (oldv newv : Option String) :
    stageFill c (updField oldv (stageFill c oldv newv)) newv = none := by
  unfold stageFill
  cases h : has c with
  | false => simp
  | true => simp [fillUpd_after]

theorem fillRespects_refl {α : Type} (emp : Option α → Bool) (oldv newv : Option α) :
    fillRespects emp oldv newv oldv :=
  ⟨fun _ => rfl, fun h => absurd rfl h⟩

theorem fillRespected_refl (p : Payload) (r : Row) : fillRespected p r r :=
  ⟨fillRespects_refl _ _ _, fillRespects_refl _ _ _, fillRespects_refl _ _ _,
   fillRespects_refl _ _ _, fillRespects_refl _ _ _, fillRespects_refl _ _ _,
   fillRespects_refl _ _ _, fillRespects_refl _ _ _⟩

theorem fillUpd_respects (c : String) (oldv newv : Option String) :
    fillRespects isEmptyV oldv newv (updField oldv (stageFill c oldv newv)) := by
  constructor
  · intro ho
    unfold stageFill fillUpd
    cases hh : has c <;> cases hn : isEmptyV newv <;> simp [updField, ho, hh, hn]
  · intro hne
    cases hh : has c with
    | false => simp [stageFill, hh, updField] at hne
    | true =>
      cases hn : isEmptyV newv with
      | true => simp [stageFill, fillUpd, hh, hn, updField] at hne
      | false =>
        cases ho : isEmptyV oldv with
        | false => simp [stageFill, fillUpd, hh, hn, ho, updField] at hne
        | true =>
          refine ⟨rfl, rfl, ?_⟩
          cases newv with
          | none => simp [isEmptyV] at hn
          | some s => simp [stageFill, fillUpd, hh, hn, ho, updField]

theorem rowMatches_rowOfPayload (p : Payload) (id : Nat) :
    rowMatches p (rowOfPayload id p) = true := by
  simp [rowMatches, keyOfRow, keyOfPayload, rowOfPayload]

theorem keyOf_applyUpdates (r : Row) (u : Updates) :
    keyOfRow (applyUpdates r u) = keyOfRow r := rfl

theorem rowMatches_applyUpdates (p : Payload) (r : Row) (u : Updates) :
    rowMatches p (applyUpdates r u) = rowMatches p r := by
  unfold rowMatches
  rw [keyOf_applyUpdates]

theorem old_ms_rowOfPayload (p : Payload) (id : Nat) :
    old_ms_of (rowOfPayload id p) = new_ms_of p := rfl

theorem time_changed_rowOfPayload (p : Payload) (id : Nat) :
    time_changed_of p (rowOfPayload id p) = false := by
  unfold time_changed_of
  rw [old_ms_rowOfPayload]
  cases new_ms_of p <;> simp

theorem new_ms_isSome_of_time_changed {p : Payload} {r : Row}
    (h : time_changed_of p r = true) : ∃ n, new_ms_of p = some n := by
  unfold time_changed_of at h
  cases hn : new_ms_of p with
  | some n => exact ⟨n, rfl⟩
  | none => rw [hn] at h; cases old_ms_of r <;> simp at h

theorem has_time_ms : has "time_ms" = true := by decide

theorem has_time_clock : has "time_clock" = true := by decide

theorem updatesFor_time_ms {p : Payload} {r : Row} (h : time_changed_of p r = true) :
    (updatesFor p r).time_ms = new_ms_of p := by
  obtain ⟨n, hn⟩ := new_ms_isSome_of_time_changed h
  simp [updatesFor, h, hn, has_time_ms]

theorem updatesFor_time_none {p : Payload} {r : Row} (h : time_changed_of p r = false) :
    (updatesFor p r).time_ms = none ∧ (updatesFor p r).time_clock = none := by
  simp [updatesFor, h, staged_fills]

theorem updatesFor_fills (p : Payload) (r : Row) :
    (updatesFor p r).athlete_name = stageFill "athlete_name" r.athlete_name p.athlete_name ∧
    (updatesFor p r).country = stageFill "country" r.country p.country ∧
    (updatesFor p r).record_date = stageFill "record_date" r.record_date p.record_date ∧
    (updatesFor p r).competition_name
      = stageFill "competition_name" r.competition_name p.competition_name ∧
    (updatesFor p r).city = stageFill "city" r.city p.city ∧
    (updatesFor p r).source_name = stageFill "source_name" r.source_name p.source_name ∧
    (updatesFor p r).source_url = stageFill "source_url" r.source_url p.source_url ∧
    (updatesFor p r).notes = stageFill "notes" r.notes p.notes := by
  unfold updatesFor
  split <;> exact ⟨rfl, rfl, rfl, rfl, rfl, rfl, rfl, rfl⟩

theorem time_changed_after (p : Payload) (r : Row) :
    time_changed_of p (applyUpdates r (updatesFor p r)) = false := by
  cases h : time_changed_of p r with
  | false =>
    obtain ⟨hms, hclk⟩ := updatesFor_time_none h
    have e1 : (applyUpdates r (updatesFor p r)).time_ms = r.time_ms := by
      simp [applyUpdates, hms, updField]
    have e2 : (applyUpdates r (updatesFor p r)).time_clock = r.time_clock := by
      simp [applyUpdates, hclk, updField]
    have : old_ms_of (applyUpdates r (updatesFor p r)) = old_ms_of r := by
      unfold old_ms_of
      rw [e1, e2]
    unfold time_changed_of at h ⊢
    rw [this]
    exact h
  | true =>
    obtain ⟨n, hn⟩ := new_ms_isSome_of_time_changed h
    have e1 : (applyUpdates r (updatesFor p r)).time_ms = some n := by
      simp [applyUpdates, updatesFor_time_ms h, hn, updField]
    have : old_ms_of (applyUpdates r (updatesFor p r)) = some n := by
      unfold old_ms_of
      rw [e1]
    unfold time_changed_of
    rw [this, hn]
    simp

theorem staged_fills_rowOfPayload (p : Payload) (id : Nat) :
    staged_fills p (rowOfPayload id p) = Updates.empty := by
  simp only [staged_fills, rowOfPayload, Updates.empty, Updates.mk.injEq]
  exact ⟨stageFill_self _ _, stageFill_self _ _, stageFill_self _ _, stageFill_self _ _,
    stageFill_self _ _, stageFill_self _ _, stageFill_self _ _, stageFill_self _ _,
    trivial, trivial⟩

theorem staged_fills_after (p : Payload) (r : Row) :
    staged_fills p (applyUpdates r (updatesFor p r)) = Updates.empty := by
  obtain ⟨h1, h2, h3, h4, h5, h6, h7, h8⟩ := updatesFor_fills p r
  simp only [staged_fills, applyUpdates, Updates.empty, Updates.mk.injEq]
  rw [h1, h2, h3, h4, h5, h6, h7, h8]
  exact ⟨stageFill_after _ _ _, stageFill_after _ _ _, stageFill_after _ _ _,
    stageFill_after _ _ _, stageFill_after _ _ _, stageFill_after _ _ _,
    stageFill_after _ _ _, stageFill_after _ _ _, trivial, trivial⟩

theorem evalExisting_unchanged_of (p : Payload) (pri : Int) (r : Row) (st : Storage)
    (hr : staged_fills p r = Updates.empty) (ht : time_changed_of p r = false) :
    evalExisting p pri r st = (.unchanged, st) := by
  unfold evalExisting
  rw [ht]
  simp [updatesFor, ht, hr]

theorem upsert_existing_eq {p : Payload} {pri : Int} {st : Storage} {r : Row}
    (conc : List Row) (hreq : requiredOk p = true)
    (hf : st.rows.find? (rowMatches p) = some r) :
    upsert_record conc p pri st = .ok (evalExisting p pri r st) := by
  unfold upsert_record
  rw [hreq, hf]
  simp

theorem upsert_insert_eq {p : Payload} {pri : Int} {st : Storage}
    (hreq : requiredOk p = true) (hf : st.rows.find? (rowMatches p) = none) :
    upsert_record [] p pri st
      = .ok (.inserted, ⟨st.rows ++ [rowOfPayload st.nextId p], st.nextId + 1⟩) := by
  unfold upsert_record
  rw [hreq, hf]
  simp [any_eq_false_of_find?_none hf]

theorem upsert_missing_eq {conc : List Row} {p : Payload} {pri : Int} {st : Storage}
    (h : requiredOk p = false) :
    upsert_record conc p pri st = .error .missingField := by
  unfold upsert_record
  rw [h]
  simp

theorem evalExisting_skip_eq {p : Payload} {pri : Int} {r : Row} (st : Storage)
    (hskip : time_changed_of p r = true ∧ pri < derive_priority r.source_name) :
    evalExisting p pri r st = (.skippedLowerPriority, st) := by
  unfold evalExisting
  rw [if_pos hskip]

theorem evalExisting_nochange_eq {p : Payload} {pri : Int} {r : Row} (st : Storage)
    (hskip : ¬(time_changed_of p r = true ∧ pri < derive_priority r.source_name))
    (hu : updatesFor p r = Updates.empty) :
    evalExisting p pri r st = (.unchanged, st) := by
  unfold evalExisting
  rw [if_neg hskip]
  simp [hu]

theorem evalExisting_update_eq {p : Payload} {pri : Int} {r : Row} (st : Storage)
    (hskip : ¬(time_changed_of p r = true ∧ pri < derive_priority r.source_name))
    (hu : updatesFor p r ≠ Updates.empty) :
    evalExisting p pri r st =
      (if time_changed_of p r = true then .updated else .filled,
       { st with
         rows := st.rows.map (fun x =>
           if x.id = r.id then applyUpdates x (updatesFor p r) else x) }) := by
  unfold evalExisting
  rw [if_neg hskip]
  simp [hu]

theorem slot_after_update (p : Payload) (r : Row) (st : Storage) (u : Updates)
    (hf : st.rows.find? (rowMatches p) = some r) :
    (st.rows.map (fun x => if x.id = r.id then applyUpdates x u else x)).find? (rowMatches p)
      = some (applyUpdates r u) := by
  rw [find?_map_of_keyinv]
  · rw [hf]
    simp
  · intro x
    by_cases hx : x.id = r.id <;> simp [hx, rowMatches_applyUpdates]

theorem upsertState_of_ok {p : Payload} {pri : Int} {st : Storage}
    {x : Status × Storage} (h : upsert_record [] p pri st = .ok x) :
    upsertState p pri st = x.2 := by
  unfold upsertState
  rw [h]

theorem upsertStatus_of_ok {p : Payload} {pri : Int} {st : Storage}
    {x : Status × Storage} (h : upsert_record [] p pri st = .ok x) :
    upsertStatus p pri st = some x.1 := by
  unfold upsertStatus
  rw [h]

theorem upsertState_of_error {p : Payload} {pri : Int} {st : Storage}
    {e : UpErr} (h : upsert_record [] p pri st = .error e) :
    upsertState p pri st = st := by
  unfold upsertState
  rw [h]

theorem requiredOk_false_of_not {p : Payload} (h : ¬ requiredOk p = true) :
    requiredOk p = false := by
  revert h
  cases requiredOk p <;> simp

/-! ## Claim C7 -/

/-- Claim C7: `parse_time_to_ms` maps the representative raw strings
`"23.76"`, `"1:41.32"`, `"1.41.32"` and `"00:01:41.3"` to 23760, 101320,
101320 and 101300 ms, maps `"NO TIME"` to not-ok, and each ok value survives
the round trip through `format_ms_to_clock` and back. -/
theorem claim_C7_time_round_trip :
    parse_time_to_ms (some "23.76") = some 23760 ∧
    parse_time_to_ms (some "1:41.32") = some 101320 ∧
    parse_time_to_ms (some "1.41.32") = some 101320 ∧
    parse_time_to_ms (some "00:01:41.3") = some 101300 ∧
    parse_time_to_ms (some "NO TIME") = none ∧
    parse_time_to_ms (some (format_ms_to_clock 23760)) = some 23760 ∧
    parse_time_to_ms (some (format_ms_to_clock 101320)) = some 101320 ∧
    parse_time_to_ms (some (format_ms_to_clock 101300)) = some 101300 := by
  decide

/-! ## Claim C3 -/

/-- Claim C3 counterexample: `parse_event` of `"4x100 m Freestyle Relay"`
returns the per-leg distance 100 (with stroke `Libre`), not the total 400
the claim asserts; the returned pair carries no relay kind at all. -/
theorem claim_C3_counterexample :
    parse_event (some "4x100 m Freestyle Relay") = (some 100, some "Libre") ∧
    (100 : Nat) ≠ 400 := by
  decide

/-- Claim C3 (amended): for relay text the event parser returns the per-leg
distance and no relay marker — `"4x100 m Freestyle Relay"` parses exactly like
the individual `"100 m Freestyle"` (distance 100), and therefore differs from
`"400 m Freestyle"` (distance 400). -/
theorem claim_C3_relay_leg_distance :
    parse_event (some "4x100 m Freestyle Relay") = (some 100, some "Libre") ∧
    parse_event (some "100 m Freestyle") = (some 100, some "Libre") ∧
    parse_event (some "400 m Freestyle") = (some 400, some "Libre") ∧
    parse_event (some "4x100 m Freestyle Relay") = parse_event (some "100 m Freestyle") ∧
    parse_event (some "4x100 m Freestyle Relay") ≠ parse_event (some "400 m Freestyle") := by
  decide

/-! ## Claim C8 -/

/-- Claim C8 counterexample: `"23.768"` does **not** parse to the same value
as `"23.76"` — digits beyond the second fractional digit are kept, not
truncated. -/
theorem claim_C8_counterexample :
    parse_time_to_ms (some "23.768") = some 23768 ∧
    parse_time_to_ms (some "23.76") = some 23760 ∧
    parse_time_to_ms (some "23.768") ≠ parse_time_to_ms (some "23.76") := by
  decide

/-- Claim C8 (amended): a 1-digit fractional part is worth tenths and a
2-digit part hundredths (`"23.7"` → 23700 ms, `"23.76"` → 23760 ms), but
digits beyond the second are not truncated: `parse_time_to_ms` keeps their
full value (`"23.768"` → 23768 ms, also in clock format), while the STABLE
`parse_time_to_seconds` rejects more than two fractional digits outright. -/
theorem claim_C8_fraction_handling :
    parse_time_to_ms (some "23.7") = some 23700 ∧
    parse_time_to_ms (some "23.76") = some 23760 ∧
    parse_time_to_ms (some "23.768") = some 23768 ∧
    parse_time_to_ms (some "00:00:23.768") = some 23768 ∧
    parse_time_to_seconds (some "23.7") = some ⟨237, 1⟩ ∧
    parse_time_to_seconds (some "23.76") = some ⟨2376, 2⟩ ∧
    parse_time_to_seconds (some "23.768") = none := by
  decide

/-! ## Claim C1 -/

/-- Claim C1 counterexample: a lower-priority candidate with a different time
and a non-empty athlete name against a stored row with an empty athlete name —
every condition of the claim holds, yet `upsert_record` returns
`skipped_lower_priority` and the athlete name is **not** filled. -/
theorem claim_C1_counterexample :
    time_changed_of candSkip rowWA = true ∧
    (10 : Int) < derive_priority rowWA.source_name ∧
    isEmptyV rowWA.athlete_name = true ∧
    isEmptyV candSkip.athlete_name = false ∧
    upsert_record [] candSkip 10 stWA = .ok (.skippedLowerPriority, stWA) ∧
    (slotRow candSkip (upsertState candSkip 10 stWA)).map Row.athlete_name = some none := by
  decide

/-- Claim C1 (amended): when the candidate time differs from the stored time
and the candidate priority is lower than the priority derived from the stored
source name, `upsert_record` returns `skipped_lower_priority` and leaves the
storage completely unchanged — the staged field-fills are discarded, not
applied. -/
theorem claim_C1_priority_skip_discards_fills (conc : List Row) (p : Payload)
    (pri : Int) (st : Storage) (r : Row)
    (hreq : requiredOk p = true)
    (hf : st.rows.find? (rowMatches p) = some r)
    (ht : time_changed_of p r = true)
    (hp : pri < derive_priority r.source_name) :
    upsert_record conc p pri st = .ok (.skippedLowerPriority, st) := by
  rw [upsert_existing_eq conc hreq hf, evalExisting_skip_eq st ⟨ht, hp⟩]

/-- Claim C1 witness. -/
theorem claim_C1_witness :
    (requiredOk candSkip = true ∧
     stWA.rows.find? (rowMatches candSkip) = some rowWA ∧
     time_changed_of candSkip rowWA = true ∧
     (10 : Int) < derive_priority rowWA.source_name) ∧
    upsert_record [] candSkip 10 stWA = .ok (.skippedLowerPriority, stWA) :=
  ⟨⟨by decide, by decide, by decide, by decide⟩,
   claim_C1_priority_skip_discards_fills [] candSkip 10 stWA rowWA (by decide) (by decide)
     (by decide) (by decide)⟩

/-! ## Claim C2 -/

/-- Claim C2 counterexample: a stored 24000 ms time is replaced by a
**slower** 25000 ms candidate of equal derived priority — the persisted
`time_ms` increases, refuting monotonicity. -/
theorem claim_C2_counterexample :
    rowCon.time_ms = some 24000 ∧
    upsert_record [] candInc 80 stCon = .ok (.updated, ⟨[rowConInc], 2⟩) ∧
    rowConInc.time_ms = some 25000 ∧
    (24000 : Int) < 25000 := by
  decide

/-- Claim C2 (amended): a step of `upsert_record` either leaves the slot
`time_ms` unchanged, or — exactly when the candidate time is set and differs
from the stored one and the candidate priority is not below the derived
priority of the stored source — replaces it with the candidate value, which
may be larger as well as smaller; `time_ms` is not monotone. -/
theorem claim_C2_time_step (p : Payload) (pri : Int) (st : Storage) (r rNew : Row)
    (hf : slotRow p st = some r)
    (hfNew : slotRow p (upsertState p pri st) = some rNew) :
    rNew.time_ms = r.time_ms ∨
      (time_changed_of p r = true ∧ ¬ pri < derive_priority r.source_name ∧
        rNew.time_ms = new_ms_of p) := by
  unfold slotRow at hf hfNew
  by_cases hreq : requiredOk p = true
  · by_cases hskip : time_changed_of p r = true ∧ pri < derive_priority r.source_name
    · rw [upsertState_of_ok (upsert_existing_eq [] hreq hf),
        evalExisting_skip_eq st hskip] at hfNew
      rw [hf] at hfNew
      left
      cases hfNew
      rfl
    · by_cases hu : updatesFor p r = Updates.empty
      · rw [upsertState_of_ok (upsert_existing_eq [] hreq hf),
          evalExisting_nochange_eq st hskip hu] at hfNew
        rw [hf] at hfNew
        left
        cases hfNew
        rfl
      · rw [upsertState_of_ok (upsert_existing_eq [] hreq hf),
          evalExisting_update_eq st hskip hu] at hfNew
        rw [slot_after_update p r st _ hf] at hfNew
        cases hfNew
        cases ht : time_changed_of p r with
        | false =>
          left
          have hms := (updatesFor_time_none ht).1
          simp [applyUpdates, hms, updField]
        | true =>
          right
          refine ⟨rfl, fun hlt => hskip ⟨ht, hlt⟩, ?_⟩
          obtain ⟨n, hn⟩ := new_ms_isSome_of_time_changed ht
          simp [applyUpdates, updatesFor_time_ms ht, hn, updField]
  · rw [upsertState_of_error (upsert_missing_eq (requiredOk_false_of_not hreq))] at hfNew
    rw [hf] at hfNew
    left
    cases hfNew
    rfl

/-- Claim C2 witness. -/
theorem claim_C2_witness :
    (slotRow candInc stCon = some rowCon ∧
     slotRow candInc (upsertState candInc 80 stCon) = some rowConInc) ∧
    (rowConInc.time_ms = rowCon.time_ms ∨
      (time_changed_of candInc rowCon = true ∧
        ¬ (80 : Int) < derive_priority rowCon.source_name ∧
        rowConInc.time_ms = new_ms_of candInc)) :=
  ⟨⟨by decide, by decide⟩,
   claim_C2_time_step candInc 80 stCon rowCon rowConInc (by decide) (by decide)⟩

/-! ## Claim C5 -/

/-- Claim C5: a fillable value field that is non-empty in the stored row is
never changed by any candidate, and a field that does change was empty before
and is overwritten with the candidate's non-empty value. -/
theorem claim_C5_fill_only_on_empty (p : Payload) (pri : Int) (st : Storage) (r rNew : Row)
    (hf : slotRow p st = some r)
    (hfNew : slotRow p (upsertState p pri st) = some rNew) :
    fillRespected p r rNew := by
  unfold slotRow at hf hfNew
  by_cases hreq : requiredOk p = true
  · by_cases hskip : time_changed_of p r = true ∧ pri < derive_priority r.source_name
    · rw [upsertState_of_ok (upsert_existing_eq [] hreq hf),
        evalExisting_skip_eq st hskip, hf] at hfNew
      cases hfNew
      exact fillRespected_refl p r
    · by_cases hu : updatesFor p r = Updates.empty
      · rw [upsertState_of_ok (upsert_existing_eq [] hreq hf),
          evalExisting_nochange_eq st hskip hu, hf] at hfNew
        cases hfNew
        exact fillRespected_refl p r
      · rw [upsertState_of_ok (upsert_existing_eq [] hreq hf),
          evalExisting_update_eq st hskip hu,
          slot_after_update p r st _ hf] at hfNew
        cases hfNew
        obtain ⟨h1, h2, h3, h4, h5, h6, h7, h8⟩ := updatesFor_fills p r
        refine ⟨?_, ?_, ?_, ?_, ?_, ?_, ?_, ?_⟩
        · show fillRespects isEmptyV r.athlete_name p.athlete_name
            (updField r.athlete_name (updatesFor p r).athlete_name)
          rw [h1]
          exact fillUpd_respects _ _ _
        · show fillRespects isEmptyV r.country p.country
            (updField r.country (updatesFor p r).country)
          rw [h2]
          exact fillUpd_respects _ _ _
        · show fillRespects isEmptyV r.record_date p.record_date
            (updField r.record_date (updatesFor p r).record_date)
          rw [h3]
          exact fillUpd_respects _ _ _
        · show fillRespects isEmptyV r.competition_name p.competition_name
            (updField r.competition_name (updatesFor p r).competition_name)
          rw [h4]
          exact fillUpd_respects _ _ _
        · show fillRespects isEmptyV r.city p.city
            (updField r.city (updatesFor p r).city)
          rw [h5]
          exact fillUpd_respects _ _ _
        · show fillRespects isEmptyV r.source_name p.source_name
            (updField r.source_name (updatesFor p r).source_name)
          rw [h6]
          exact fillUpd_respects _ _ _
        · show fillRespects isEmptyV r.source_url p.source_url
            (updField r.source_url (updatesFor p r).source_url)
          rw [h7]
          exact fillUpd_respects _ _ _
        · show fillRespects isEmptyV r.notes p.notes
            (updField r.notes (updatesFor p r).notes)
          rw [h8]
          exact fillUpd_respects _ _ _
  · rw [upsertState_of_error (upsert_missing_eq (requiredOk_false_of_not hreq)), hf] at hfNew
    cases hfNew
    exact fillRespected_refl p r

/-- Claim C5 witness. -/
theorem claim_C5_witness :
    (slotRow candFill stFull = some rowFull ∧
     slotRow candFill (upsertState candFill 80 stFull) = some rowFull) ∧
    fillRespected candFill rowFull rowFull :=
  ⟨⟨by decide, by decide⟩,
   claim_C5_fill_only_on_empty candFill 80 stFull rowFull rowFull (by decide) (by decide)⟩

/-! ## Claim C4 -/

/-- Claim C4 counterexample: the priority-blocked candidate leaves the state
unchanged, so its second application is the very same call — and it returns
`skipped_lower_priority`, not `unchanged`, refuting the claimed second-run
decision. -/
theorem claim_C4_counterexample :
    upsert_record [] candSkip 10 stWA = .ok (.skippedLowerPriority, stWA) ∧
    upsert_record [] candSkip 10 (upsertState candSkip 10 stWA)
      = .ok (.skippedLowerPriority, stWA) ∧
    Status.skippedLowerPriority ≠ Status.unchanged := by
  decide

/-- Claim C4 (amended): applying the same candidate twice yields the same
final storage state as applying it once, and the second application returns
`unchanged` — except when the candidate is priority-blocked, in which case
both applications return `skipped_lower_priority` (still with no state
change). -/
theorem claim_C4_idempotent (p : Payload) (pri : Int) (st : Storage)
    (hreq : requiredOk p = true) :
    ∃ s1 st1 s2, upsert_record [] p pri st = .ok (s1, st1) ∧
      upsert_record [] p pri st1 = .ok (s2, st1) ∧
      (s2 = .unchanged ∨ s1 = .skippedLowerPriority) ∧
      (s1 = .skippedLowerPriority → s2 = .skippedLowerPriority) := by
  cases hf : st.rows.find? (rowMatches p) with
  | none =>
    refine ⟨.inserted, ⟨st.rows ++ [rowOfPayload st.nextId p], st.nextId + 1⟩, .unchanged,
      upsert_insert_eq hreq hf, ?_, Or.inl rfl, fun h => nomatch h⟩
    have hfind : (st.rows ++ [rowOfPayload st.nextId p]).find? (rowMatches p)
        = some (rowOfPayload st.nextId p) := by
      rw [find?_append_of_none _ hf, List.find?_cons]
      simp [rowMatches_rowOfPayload]
    rw [upsert_existing_eq [] hreq hfind,
      evalExisting_unchanged_of p pri (rowOfPayload st.nextId p) _
        (staged_fills_rowOfPayload p st.nextId) (time_changed_rowOfPayload p st.nextId)]
  | some r =>
    by_cases hskip : time_changed_of p r = true ∧ pri < derive_priority r.source_name
    · exact ⟨.skippedLowerPriority, st, .skippedLowerPriority,
        by rw [upsert_existing_eq [] hreq hf, evalExisting_skip_eq st hskip],
        by rw [upsert_existing_eq [] hreq hf, evalExisting_skip_eq st hskip],
        Or.inr rfl, fun _ => rfl⟩
    · by_cases hu : updatesFor p r = Updates.empty
      · exact ⟨.unchanged, st, .unchanged,
          by rw [upsert_existing_eq [] hreq hf, evalExisting_nochange_eq st hskip hu],
          by rw [upsert_existing_eq [] hreq hf, evalExisting_nochange_eq st hskip hu],
          Or.inl rfl, fun h => nomatch h⟩
      · refine ⟨if time_changed_of p r = true then .updated else .filled,
          { st with
            rows := st.rows.map (fun x =>
              if x.id = r.id then applyUpdates x (updatesFor p r) else x) },
          .unchanged,
          by rw [upsert_existing_eq [] hreq hf, evalExisting_update_eq st hskip hu],
          ?_, Or.inl rfl, ?_⟩
        · have hfind2 : (st.rows.map (fun x =>
              if x.id = r.id then applyUpdates x (updatesFor p r) else x)).find?
                (rowMatches p) = some (applyUpdates r (updatesFor p r)) :=
            slot_after_update p r st _ hf
          rw [upsert_existing_eq [] hreq hfind2,
            evalExisting_unchanged_of p pri (applyUpdates r (updatesFor p r)) _
              (staged_fills_after p r) (time_changed_after p r)]
        · intro hs
          by_cases ht : time_changed_of p r = true
          · rw [if_pos ht] at hs
            exact nomatch hs
          · rw [if_neg ht] at hs
            exact nomatch hs

/-- Claim C4 witness. -/
theorem claim_C4_witness :
    requiredOk candFill = true ∧
    (∃ s1 st1 s2, upsert_record [] candFill 80 stFull = .ok (s1, st1) ∧
      upsert_record [] candFill 80 st1 = .ok (s2, st1) ∧
      (s2 = .unchanged ∨ s1 = .skippedLowerPriority) ∧
      (s1 = .skippedLowerPriority → s2 = .skippedLowerPriority)) :=
  ⟨by decide, claim_C4_idempotent candFill 80 stFull (by decide)⟩

/-! ## Claim C6 -/

/-- Claim C6 counterexample: a concurrent writer commits the slot between the
lookup and the insert; `upsert_record` does not retry or re-read — the
conflict escapes as an exception and the `run_sudam` loop records it as a
per-candidate error. -/
theorem claim_C6_counterexample :
    upsert_record [concRow] candInc 80 stEmpty = .error .conflict ∧
    run_sudam_step [concRow] candInc 80 stEmpty stats0
      = ({ stats0 with seen := 1, errors := 1 }, stEmpty) := by
  decide

/-- Claim C6 (amended): on a unique-constraint conflict the insert path of
`upsert_record` surfaces the conflict as an error — there is no bounded
retry or re-read — and the caller (`run_sudam`) counts it against the single
candidate and continues, leaving storage untouched. -/
theorem claim_C6_conflict_is_error (conc : List Row) (p : Payload) (pri : Int)
    (st : Storage) (stats : Stats)
    (hreq : requiredOk p = true)
    (hf : st.rows.find? (rowMatches p) = none)
    (hc : (st.rows ++ conc).any (rowMatches p) = true) :
    upsert_record conc p pri st = .error .conflict ∧
      run_sudam_step conc p pri st stats
        = ({ stats with seen := stats.seen + 1, errors := stats.errors + 1 }, st) := by
  have h1 : upsert_record conc p pri st = .error .conflict := by
    unfold upsert_record
    rw [hreq, hf]
    simp [hc]
  refine ⟨h1, ?_⟩
  unfold run_sudam_step
  rw [h1]

/-- Claim C6 witness. -/
theorem claim_C6_witness :
    (requiredOk candInc = true ∧
     stEmpty.rows.find? (rowMatches candInc) = none ∧
     (stEmpty.rows ++ [concRow]).any (rowMatches candInc) = true) ∧
    (upsert_record [concRow] candInc 80 stEmpty = .error .conflict ∧
      run_sudam_step [concRow] candInc 80 stEmpty stats0
        = ({ stats0 with seen := stats0.seen + 1, errors := stats0.errors + 1 }, stEmpty)) :=
  ⟨⟨by decide, by decide, by decide⟩,
   claim_C6_conflict_is_error [concRow] candInc 80 stEmpty stats0 (by decide) (by decide)
     (by decide)⟩

/-! ## Claim C9 -/

theorem Dec.blt_asymm {a b : Dec} (h : Dec.blt a b = true) : Dec.blt b a = false := by
  unfold Dec.blt at h ⊢
  rw [decide_eq_true_eq] at h
  rw [decide_eq_false_iff_not]
  exact not_lt.mpr (le_of_lt h)

/-- Claim C9: when both sibling-table probe times (the `extraer_tiempo_testigo`
values for the fixed 50-free reference event) are genuine positive times and
differ, the table with the strictly smaller time is assigned `"M"` and the
other `"F"`. -/
theorem claim_C9_probe_time (A B : List (List (Option String)))
    (h0 : Dec.blt ⟨0, 0⟩ (extraer_tiempo_testigo A) = true)
    (h1 : Dec.blt ⟨0, 0⟩ (extraer_tiempo_testigo B) = true) :
    (Dec.blt (extraer_tiempo_testigo A) (extraer_tiempo_testigo B) = true →
      mapa_generos_pdf A B = ("M", "F")) ∧
    (Dec.blt (extraer_tiempo_testigo B) (extraer_tiempo_testigo A) = true →
      mapa_generos_pdf A B = ("F", "M")) := by
  constructor
  · intro hab
    unfold mapa_generos_pdf
    rw [if_pos ⟨h0, hab⟩]
  · intro hba
    have hnab : ¬(Dec.blt ⟨0, 0⟩ (extraer_tiempo_testigo A) = true ∧
        Dec.blt (extraer_tiempo_testigo A) (extraer_tiempo_testigo B) = true) := by
      rintro ⟨-, hab⟩
      rw [Dec.blt_asymm hba] at hab
      exact nomatch hab
    unfold mapa_generos_pdf
    rw [if_neg hnab, if_pos ⟨h1, hba⟩]

/-- Claim C9 witness. -/
theorem claim_C9_witness :
    (Dec.blt ⟨0, 0⟩ (extraer_tiempo_testigo tablaRapida) = true ∧
     Dec.blt ⟨0, 0⟩ (extraer_tiempo_testigo tablaLenta) = true ∧
     Dec.blt (extraer_tiempo_testigo tablaRapida) (extraer_tiempo_testigo tablaLenta) = true) ∧
    mapa_generos_pdf tablaRapida tablaLenta = ("M", "F") :=
  ⟨⟨by decide, by decide, by decide⟩,
   (claim_C9_probe_time tablaRapida tablaLenta (by decide) (by decide)).1 (by decide)⟩

/-! ## Claim C10 -/

/-- Claim C10: the stored record's priority is not persisted but re-derived
from its `source_name` by case-insensitive substring matching, in the `elif`
order of the source: `world aquatics` → 100, else `usa swimming`/`data hub` →
90, else `consanat` → 80, else `wikipedia` → 10, anything else (including a
missing name) → 50; and a candidate whose priority merely equals this derived
value passes the priority gate and changes the time. -/
theorem claim_C10_derived_priority :
    (∀ sn : Option String,
      (csub (pyLower (pyStrip (sn.getD "").data)) "world aquatics".data = true →
        derive_priority sn = 100) ∧
      (csub (pyLower (pyStrip (sn.getD "").data)) "world aquatics".data = false →
        (csub (pyLower (pyStrip (sn.getD "").data)) "usa swimming".data = true ∨
          csub (pyLower (pyStrip (sn.getD "").data)) "data hub".data = true) →
        derive_priority sn = 90) ∧
      (csub (pyLower (pyStrip (sn.getD "").data)) "world aquatics".data = false →
        csub (pyLower (pyStrip (sn.getD "").data)) "usa swimming".data = false →
        csub (pyLower (pyStrip (sn.getD "").data)) "data hub".data = false →
        csub (pyLower (pyStrip (sn.getD "").data)) "consanat".data = true →
        derive_priority sn = 80) ∧
      (csub (pyLower (pyStrip (sn.getD "").data)) "world aquatics".data = false →
        csub (pyLower (pyStrip (sn.getD "").data)) "usa swimming".data = false →
        csub (pyLower (pyStrip (sn.getD "").data)) "data hub".data = false →
        csub (pyLower (pyStrip (sn.getD "").data)) "consanat".data = false →
        csub (pyLower (pyStrip (sn.getD "").data)) "wikipedia".data = true →
        derive_priority sn = 10) ∧
      (csub (pyLower (pyStrip (sn.getD "").data)) "world aquatics".data = false →
        csub (pyLower (pyStrip (sn.getD "").data)) "usa swimming".data = false →
        csub (pyLower (pyStrip (sn.getD "").data)) "data hub".data = false →
        csub (pyLower (pyStrip (sn.getD "").data)) "consanat".data = false →
        csub (pyLower (pyStrip (sn.getD "").data)) "wikipedia".data = false →
        derive_priority sn = 50)) ∧
    (∀ (p : Payload) (st : Storage) (r : Row),
      requiredOk p = true →
      st.rows.find? (rowMatches p) = some r →
      time_changed_of p r = true →
      upsertStatus p (derive_priority r.source_name) st = some .updated ∧
      (slotRow p (upsertState p (derive_priority r.source_name) st)).map Row.time_ms
        = some (new_ms_of p)) := by
  constructor
  · intro sn
    refine ⟨?_, ?_, ?_, ?_, ?_⟩
    · intro h
      simp [derive_priority, h]
    · intro h ho
      cases ho with
      | inl h2 => simp [derive_priority, h, h2]
      | inr h2 => simp [derive_priority, h, h2]
    · intro h h2 h3 h4
      simp [derive_priority, h, h2, h3, h4]
    · intro h h2 h3 h4 h5
      simp [derive_priority, h, h2, h3, h4, h5]
    · intro h h2 h3 h4 h5
      simp [derive_priority, h, h2, h3, h4, h5]
  · intro p st r hreq hf ht
    have hskip : ¬(time_changed_of p r = true ∧
        derive_priority r.source_name < derive_priority r.source_name) := by
      rintro ⟨-, hlt⟩
      exact lt_irrefl _ hlt
    obtain ⟨n, hn⟩ := new_ms_isSome_of_time_changed ht
    have hu : updatesFor p r ≠ Updates.empty := by
      intro he
      have hms := updatesFor_time_ms ht
      rw [he, hn] at hms
      exact Option.noConfusion hms
    have hupsert := @upsert_existing_eq p (derive_priority r.source_name) st r [] hreq hf
    rw [evalExisting_update_eq st hskip hu, if_pos ht] at hupsert
    constructor
    · rw [upsertStatus_of_ok hupsert]
    · unfold slotRow
      rw [upsertState_of_ok hupsert]
      rw [slot_after_update p r st _ hf]
      simp [applyUpdates, updatesFor_time_ms ht, hn, updField]

/-- Claim C10 witness. -/
theorem claim_C10_witness :
    derive_priority (some "World Aquatics") = 100 ∧
    derive_priority (some "USA Swimming Data Hub") = 90 ∧
    derive_priority (some "CONSANAT") = 80 ∧
    derive_priority (some "Wikipedia (Sudamérica)") = 10 ∧
    derive_priority none = 50 ∧
    (upsertStatus candEq (derive_priority rowCon.source_name) stCon = some .updated ∧
      (slotRow candEq
        (upsertState candEq (derive_priority rowCon.source_name) stCon)).map Row.time_ms
        = some (new_ms_of candEq)) :=
  ⟨(claim_C10_derived_priority.1 (some "World Aquatics")).1 (by decide),
   (claim_C10_derived_priority.1 (some "USA Swimming Data Hub")).2.1 (by decide)
     (Or.inl (by decide)),
   (claim_C10_derived_priority.1 (some "CONSANAT")).2.2.1 (by decide) (by decide) (by decide)
     (by decide),
   (claim_C10_derived_priority.1 (some "Wikipedia (Sudamérica)")).2.2.2.1 (by decide)
     (by decide) (by decide) (by decide) (by decide),
   (claim_C10_derived_priority.1 none).2.2.2.2 (by decide) (by decide) (by decide) (by decide)
     (by decide),
   claim_C10_derived_priority.2 candEq stCon rowCon (by decide) (by decide) (by decide)⟩

end ActiveDB
